import Mathlib

/-!
Verification of the routing/model-health core of the `glide` LLM gateway.

The file shallowly embeds the Go code of `pkg/providers` (`LangModel` and its
`Chat`/`Healthy` methods) together with the health and latency primitives it
uses.  The health primitives (`TokenBucket`, `RateLimitTracker`) and the
latency estimator (`MovingAverage`) live in packages that are not part of the
excerpt, so they are modelled from the specification text; each such
definition carries a doc comment saying so.  Machine clocks are modelled as
natural-number tick counts (monotonic nanoseconds), and floating-point
quantities as rationals.
-/

namespace Glide

/-- Modelled from the spec: `MovingAverage` (§3, §4.1) of the `latency`
package, which is absent from the excerpt.  `decay` is the weight of the
newest sample, `warmupSamples` the length of the arithmetic-mean warm-up,
`count` the number of samples seen and `value` the current estimate
(ns per response token, a float modelled as `ℚ`). -/
structure MovingAverage where
  decay : ℚ
  warmupSamples : ℕ
  count : ℕ
  value : ℚ
  deriving Repr, DecidableEq

/-- Modelled from the spec: constructor of the latency estimator
(`latency.NewMovingAverage`), starting with no samples. -/
def NewMovingAverage (decay : ℚ) (warmupSamples : ℕ) : MovingAverage :=
  { decay := decay, warmupSamples := warmupSamples, count := 0, value := 0 }

/-- Modelled from the spec (§4.1): while `count < warmupSamples` accumulate an
arithmetic mean, afterwards an EWMA; always increment `count`. -/
def MovingAverage.add (m : MovingAverage) (sample : ℚ) : MovingAverage :=
  if m.count < m.warmupSamples then
    { m with value := m.value + (sample - m.value) / (m.count + 1)
             count := m.count + 1 }
  else
    { m with value := m.value * (1 - m.decay) + sample * m.decay
             count := m.count + 1 }

/-- Modelled from the spec: `TokenBucket` (§3, §4.2) of the `health` package,
absent from the excerpt.  `tokens` is the current token count,
`lastRefill` the monotonic instant of the last accounted refill, and
`refillInterval` the time needed to refill one token. -/
structure TokenBucket where
  capacity : ℕ
  refillInterval : ℕ
  tokens : ℕ
  lastRefill : ℕ
  deriving Repr, DecidableEq

/-- Modelled from the spec: `health.NewTokenBucket(timePerToken, maxTokens)`;
the bucket starts full (§3: "Starts full."). -/
def NewTokenBucket (timePerToken : ℕ) (maxTokens : ℕ) (now : ℕ) : TokenBucket :=
  { capacity := maxTokens, refillInterval := timePerToken,
    tokens := maxTokens, lastRefill := now }

/-- Modelled from the spec (§4.2): lazy refill.  `newTokens` is the number of
whole refill intervals elapsed; when positive, tokens are credited clamped to
capacity and `lastRefill` advances by the consumed whole intervals, preserving
the fractional remainder. -/
def TokenBucket.refill (b : TokenBucket) (now : ℕ) : TokenBucket :=
  let newTokens := (now - b.lastRefill) / b.refillInterval
  if 0 < newTokens then
    { b with tokens := min b.capacity (b.tokens + newTokens)
             lastRefill := b.lastRefill + newTokens * b.refillInterval }
  else
    b

/-- Modelled from the spec (§3): `take(n)` succeeds iff after lazily refilling
`tokens ≥ n`, then deducts `n` and returns true; otherwise returns false with
no state change. -/
def TokenBucket.take (b : TokenBucket) (n : ℕ) (now : ℕ) : Bool × TokenBucket :=
  let b' := b.refill now
  if n ≤ b'.tokens then
    (true, { b' with tokens := b'.tokens - n })
  else
    (false, b)

/-- Modelled from the spec (§3): `hasTokens()` = lazy refill, then
`tokens > 0`. -/
def TokenBucket.hasTokens (b : TokenBucket) (now : ℕ) : Bool × TokenBucket :=
  let b' := b.refill now
  (decide (0 < b'.tokens), b')

/-- Modelled from the spec: `RateLimitTracker` (§3, §4.3) of the `health`
package, absent from the excerpt.  `resetAt = none` means not limited. -/
structure RateLimitTracker where
  resetAt : Option ℕ
  deriving Repr, DecidableEq

/-- Modelled from the spec: `health.NewRateLimitTracker()`, initially not
limited. -/
def NewRateLimitTracker : RateLimitTracker :=
  { resetAt := none }

/-- Modelled from the spec (§3): `setLimited(d)` sets `resetAt := now + d`. -/
def RateLimitTracker.setLimited (t : RateLimitTracker) (now d : ℕ) : RateLimitTracker :=
  { t with resetAt := some (now + d) }

/-- Modelled from the spec (§3): `limited()` returns
`resetAt.isSome && resetAt > now` (the self-clearing on expiry does not change
the returned value and is omitted from this pure observation). -/
def RateLimitTracker.limited (t : RateLimitTracker) (now : ℕ) : Bool :=
  match t.resetAt with
  | none => false
  | some r => decide (now < r)

/-- Modelled from the spec (§6): token-usage block of the unified response;
the core reads only `responseTokens` (a numeric float field, modelled as
`ℚ`). -/
structure TokenUsage where
  promptTokens : ℚ
  responseTokens : ℚ
  totalTokens : ℚ
  deriving Repr, DecidableEq

/-- Modelled from the spec (§6): the provider-produced part of the response,
opaque to the core except for `tokenUsage`; `message` stands for the opaque
payload. -/
structure ModelResponse where
  tokenUsage : TokenUsage
  message : String
  deriving Repr, DecidableEq

/-- Modelled from the spec (§6): unified chat response.  The core writes
`modelID` and `routerID` and reads `modelResponse.tokenUsage.responseTokens`. -/
structure UnifiedChatResponse where
  modelID : String
  routerID : String
  modelResponse : ModelResponse
  deriving Repr, DecidableEq

/-- Modelled from the spec (§7): the normalized error kinds the provider
client may surface to `LangModel.Chat`.  `rateLimit d` carries
`untilReset() = d`; `requestError` covers every other (4xx/5xx/transport)
error. -/
inductive ChatError where
  | rateLimit (untilReset : ℕ)
  | requestError (msg : String)
  deriving Repr, DecidableEq

/-- Outcome of the provider client call `client.Chat(ctx, request)`: either a
response with a nil error, or a non-nil error (the Go client contract returns
a usable response exactly when the error is nil). -/
inductive ClientOutcome where
  | success (resp : UnifiedChatResponse)
  | failure (err : ChatError)
  deriving Repr, DecidableEq

/-- `LangModel` wraps a provider client with health and latency tracking
(`pkg/providers`, `type LangModel struct`).  The `client` handle itself is
factored out: `Chat` below takes the client call's outcome and elapsed time
as arguments. -/
structure LangModel where
  modelID : String
  weight : ℤ
  rateLimit : RateLimitTracker
  errorBudget : TokenBucket
  latency : MovingAverage
  latencyUpdateInterval : Option ℕ
  deriving Repr, DecidableEq

/-- Modelled from the spec (§6): per-model error-budget configuration:
`budget` (capacity) and `timePerToken` (refill interval). -/
structure ErrorBudget where
  budget : ℕ
  timePerToken : ℕ
  deriving Repr, DecidableEq

/-- Modelled from the spec (§6): per-model latency configuration. -/
structure LatencyConfig where
  decay : ℚ
  warmupSamples : ℕ
  updateInterval : Option ℕ
  deriving Repr, DecidableEq

/-- `NewLangModel` (`pkg/providers`): fresh rate-limit tracker, full error
budget, empty moving average. -/
def NewLangModel (modelID : String) (budget : ErrorBudget)
    (latencyConfig : LatencyConfig) (weight : ℤ) (now : ℕ) : LangModel :=
  { modelID := modelID
    weight := weight
    rateLimit := NewRateLimitTracker
    errorBudget := NewTokenBucket budget.timePerToken budget.budget now
    latency := NewMovingAverage latencyConfig.decay latencyConfig.warmupSamples
    latencyUpdateInterval := latencyConfig.updateInterval }

/-- `LangModel.Healthy` (`pkg/providers`):
`!m.rateLimit.Limited() && m.errorBudget.HasTokens()`. -/
def LangModel.Healthy (m : LangModel) (now : ℕ) : Bool :=
  !m.rateLimit.limited now && (m.errorBudget.hasTokens now).1

/-- `LangModel.Chat` (`pkg/providers`), given the provider client call's
outcome and its elapsed wall time `elapsedNs` (the Go code computes it as
`time.Since(startedAt)`), at monotonic instant `now`.  Mirrors the source:
on a nil error it unconditionally adds the per-token latency sample
`elapsed / responseTokens`, stamps `resp.ModelID`, and returns the response;
on a rate-limit error it marks the tracker limited for `UntilReset()`;
on any other error it takes one token from the error budget, discarding the
boolean result. -/
def LangModel.Chat (m : LangModel) (outcome : ClientOutcome)
    (elapsedNs : ℕ) (now : ℕ) :
    LangModel × Option UnifiedChatResponse × Option ChatError :=
  match outcome with
  | .success resp =>
      let sample := (elapsedNs : ℚ) / resp.modelResponse.tokenUsage.responseTokens
      let m' := { m with latency := m.latency.add sample }
      (m', some { resp with modelID := m.modelID }, none)
  | .failure err =>
      match err with
      | .rateLimit d =>
          ({ m with rateLimit := m.rateLimit.setLimited now d }, none, some err)
      | .requestError s =>
          ({ m with errorBudget := (m.errorBudget.take 1 now).2 }, none,
            some (.requestError s))

/-- One observable operation on a token bucket together with the monotonic
instant at which it is executed. -/
inductive BucketOp where
  | take (n : ℕ)
  | hasTokens
  deriving Repr, DecidableEq

/-- Execute one timed bucket operation, keeping the post-state. -/
def TokenBucket.step (b : TokenBucket) : BucketOp × ℕ → TokenBucket
  | (.take n, t) => (b.take n t).2
  | (.hasTokens, t) => (b.hasTokens t).2

/-- Execute a finite sequence of timed `take`/`hasTokens` operations. -/
def TokenBucket.run (b : TokenBucket) (ops : List (BucketOp × ℕ)) : TokenBucket :=
  ops.foldl TokenBucket.step b

lemma TokenBucket.refill_capacity (b : TokenBucket) (t : ℕ) :
    (b.refill t).capacity = b.capacity := by
  unfold TokenBucket.refill
  dsimp only
  split <;> rfl

lemma TokenBucket.refill_tokens_le (b : TokenBucket) (t : ℕ)
    (h : b.tokens ≤ b.capacity) : (b.refill t).tokens ≤ (b.refill t).capacity := by
  unfold TokenBucket.refill
  dsimp only
  split
  · exact min_le_left _ _
  · exact h

lemma TokenBucket.take_snd_tokens_le (b : TokenBucket) (n t : ℕ)
    (h : b.tokens ≤ b.capacity) : (b.take n t).2.tokens ≤ (b.take n t).2.capacity := by
  unfold TokenBucket.take
  dsimp only
  split
  · exact le_trans (Nat.sub_le _ _) (b.refill_tokens_le t h)
  · exact h

lemma TokenBucket.hasTokens_snd_tokens_le (b : TokenBucket) (t : ℕ)
    (h : b.tokens ≤ b.capacity) :
    (b.hasTokens t).2.tokens ≤ (b.hasTokens t).2.capacity :=
  b.refill_tokens_le t h

lemma TokenBucket.step_tokens_le (b : TokenBucket) (op : BucketOp × ℕ)
    (h : b.tokens ≤ b.capacity) : (b.step op).tokens ≤ (b.step op).capacity := by
  rcases op with ⟨op, t⟩
  cases op with
  | take n => exact b.take_snd_tokens_le n t h
  | hasTokens => exact b.hasTokens_snd_tokens_le t h

lemma TokenBucket.run_tokens_le (ops : List (BucketOp × ℕ)) (b : TokenBucket)
    (h : b.tokens ≤ b.capacity) : (b.run ops).tokens ≤ (b.run ops).capacity := by
  induction ops generalizing b with
  | nil => exact h
  | cons op rest ih =>
      exact ih (b.step op) (b.step_tokens_le op h)

lemma MovingAverage.add_count (m : MovingAverage) (s : ℚ) :
    (m.add s).count = m.count + 1 := by
  unfold MovingAverage.add
  split <;> rfl

/-- C1: the claim states that on a successful `Chat` whose response reports
zero response tokens no latency sample is added.  The source
(`LangModel.Chat`, success branch) calls `latency.Add` unconditionally, with
no guard on `ResponseTokens`: evaluating the embedded code on a fresh model
and a successful response with `responseTokens = 0` shows the latency sample
count rising from 0 to 1, i.e. a sample IS recorded and the division is
performed with a zero divisor. -/
theorem chat_zero_tokens_sample_added :
    (((NewLangModel "model-a" ⟨3, 1000⟩ ⟨1/10, 3, none⟩ 1 0).Chat
        (.success ⟨"", "", ⟨⟨0, 0, 0⟩, "empty"⟩⟩) 5000 0).1.latency.count) = 1 := by
  decide

/-- C2: on a rate-limit error from the provider client, `Chat` sets the
rate-limit tracker to `setLimited(untilReset)`, returns the original error
with no response, and leaves the error budget (and the latency average)
untouched. -/
theorem chat_rateLimit_no_budget_debit (m : LangModel) (d elapsedNs now : ℕ) :
    ((m.Chat (.failure (.rateLimit d)) elapsedNs now).1.rateLimit =
        m.rateLimit.setLimited now d) ∧
    ((m.Chat (.failure (.rateLimit d)) elapsedNs now).1.errorBudget =
        m.errorBudget) ∧
    ((m.Chat (.failure (.rateLimit d)) elapsedNs now).1.latency = m.latency) ∧
    ((m.Chat (.failure (.rateLimit d)) elapsedNs now).2.2 =
        some (.rateLimit d)) ∧
    ((m.Chat (.failure (.rateLimit d)) elapsedNs now).2.1 = none) :=
  ⟨rfl, rfl, rfl, rfl, rfl⟩

/-- C3: on a non-rate-limit error from the provider client, `Chat` applies
`take(1)` to the error budget (discarding its boolean result), returns the
original error with no response, and leaves the latency moving average and
the rate-limit tracker unchanged; whenever the lazily refilled bucket holds
at least one token, exactly one token is debited. -/
theorem chat_requestError_debits_budget (m : LangModel) (s : String)
    (elapsedNs now : ℕ) :
    ((m.Chat (.failure (.requestError s)) elapsedNs now).1.errorBudget =
        (m.errorBudget.take 1 now).2) ∧
    ((m.Chat (.failure (.requestError s)) elapsedNs now).1.latency = m.latency) ∧
    ((m.Chat (.failure (.requestError s)) elapsedNs now).1.rateLimit =
        m.rateLimit) ∧
    ((m.Chat (.failure (.requestError s)) elapsedNs now).2.2 =
        some (.requestError s)) ∧
    ((m.Chat (.failure (.requestError s)) elapsedNs now).2.1 = none) ∧
    (1 ≤ (m.errorBudget.refill now).tokens →
      (m.Chat (.failure (.requestError s)) elapsedNs now).1.errorBudget.tokens =
        (m.errorBudget.refill now).tokens - 1) := by
  refine ⟨rfl, rfl, rfl, rfl, rfl, ?_⟩
  intro h
  show (m.errorBudget.take 1 now).2.tokens = (m.errorBudget.refill now).tokens - 1
  unfold TokenBucket.take
  dsimp only
  rw [if_pos h]

/-- C3 witness: a fresh model with a budget of 3 tokens loses exactly one
token on a request error. -/
theorem chat_requestError_debits_budget_witness :
    ((NewLangModel "model-a" ⟨3, 1000⟩ ⟨1/10, 3, none⟩ 1 0).Chat
        (.failure (.requestError "boom")) 5000 7).1.errorBudget.tokens =
      ((NewLangModel "model-a" ⟨3, 1000⟩ ⟨1/10, 3, none⟩ 1 0).errorBudget.refill
        7).tokens - 1 :=
  (chat_requestError_debits_budget
    (NewLangModel "model-a" ⟨3, 1000⟩ ⟨1/10, 3, none⟩ 1 0) "boom" 5000
    7).2.2.2.2.2 (by decide)

/-- C4: `Healthy()` returns true iff the rate-limit tracker is not limited
and the error budget has at least one token after its lazy refill. -/
theorem healthy_iff_not_limited_and_tokens (m : LangModel) (now : ℕ) :
    m.Healthy now = true ↔
      (m.rateLimit.limited now = false ∧ (m.errorBudget.hasTokens now).1 = true) := by
  simp [LangModel.Healthy, Bool.and_eq_true, Bool.not_eq_true']

/-- C5: on a successful client call, `Chat` returns the response with its
`modelID` stamped to the model's own id and a nil error; when the model's id
is non-empty, so is the returned response's `modelID`. -/
theorem chat_success_stamps_modelID (m : LangModel) (resp : UnifiedChatResponse)
    (elapsedNs now : ℕ) (h : m.modelID ≠ "") :
    ((m.Chat (.success resp) elapsedNs now).2.1 =
        some { resp with modelID := m.modelID }) ∧
    ((m.Chat (.success resp) elapsedNs now).2.2 = none) ∧
    (∀ out, (m.Chat (.success resp) elapsedNs now).2.1 = some out →
      out.modelID = m.modelID ∧ out.modelID ≠ "") := by
  refine ⟨rfl, rfl, ?_⟩
  intro out hout
  have : out = { resp with modelID := m.modelID } := by
    injection hout with h2
    exact h2.symm
  subst this
  exact ⟨rfl, h⟩

/-- C5 witness: a model with id `model-a` stamps its id on a concrete
successful response embodying spec scenario 1, and the stamped id is
non-empty. -/
theorem chat_success_stamps_modelID_witness :
    ((NewLangModel "model-a" ⟨3, 1000⟩ ⟨1/10, 3, none⟩ 1 0).Chat
        (.success ⟨"", "", ⟨⟨10, 100, 110⟩, "hi"⟩⟩) 200000000 0).2.1 =
      some ⟨"model-a", "", ⟨⟨10, 100, 110⟩, "hi"⟩⟩ ∧
    ((NewLangModel "model-a" ⟨3, 1000⟩ ⟨1/10, 3, none⟩ 1 0).Chat
        (.success ⟨"", "", ⟨⟨10, 100, 110⟩, "hi"⟩⟩) 200000000 0).2.2 = none ∧
    ("model-a" : String) ≠ "" :=
  ⟨(chat_success_stamps_modelID
      (NewLangModel "model-a" ⟨3, 1000⟩ ⟨1/10, 3, none⟩ 1 0)
      ⟨"", "", ⟨⟨10, 100, 110⟩, "hi"⟩⟩ 200000000 0 (by decide)).1,
   (chat_success_stamps_modelID
      (NewLangModel "model-a" ⟨3, 1000⟩ ⟨1/10, 3, none⟩ 1 0)
      ⟨"", "", ⟨⟨10, 100, 110⟩, "hi"⟩⟩ 200000000 0 (by decide)).2.1,
   ((chat_success_stamps_modelID
      (NewLangModel "model-a" ⟨3, 1000⟩ ⟨1/10, 3, none⟩ 1 0)
      ⟨"", "", ⟨⟨10, 100, 110⟩, "hi"⟩⟩ 200000000 0 (by decide)).2.2
      ⟨"model-a", "", ⟨⟨10, 100, 110⟩, "hi"⟩⟩ rfl).2⟩

/-- C6: a successful client call with positive reported response tokens `T`
and elapsed time `E` adds exactly one latency sample, of value `E / T`, to
the model's moving average. -/
theorem chat_success_one_latency_sample (m : LangModel)
    (resp : UnifiedChatResponse) (elapsedNs now : ℕ)
    (h : 0 < resp.modelResponse.tokenUsage.responseTokens) :
    ((m.Chat (.success resp) elapsedNs now).1.latency =
        m.latency.add
          ((elapsedNs : ℚ) / resp.modelResponse.tokenUsage.responseTokens)) ∧
    ((m.Chat (.success resp) elapsedNs now).1.latency.count =
        m.latency.count + 1) :=
  ⟨rfl, m.latency.add_count _⟩

/-- C6 witness: 100 response tokens produced in 200 ms yield one sample of
value 200000000/100 = 2·10⁶ ns per token (spec scenario 1). -/
theorem chat_success_one_latency_sample_witness :
    ((NewLangModel "model-a" ⟨3, 1000⟩ ⟨1/10, 3, none⟩ 1 0).Chat
        (.success ⟨"", "", ⟨⟨10, 100, 110⟩, "hi"⟩⟩) 200000000 0).1.latency =
      (NewLangModel "model-a" ⟨3, 1000⟩ ⟨1/10, 3, none⟩ 1 0).latency.add
        ((200000000 : ℚ) / 100) ∧
    ((NewLangModel "model-a" ⟨3, 1000⟩ ⟨1/10, 3, none⟩ 1 0).Chat
        (.success ⟨"", "", ⟨⟨10, 100, 110⟩, "hi"⟩⟩) 200000000 0).1.latency.count =
      (NewLangModel "model-a" ⟨3, 1000⟩ ⟨1/10, 3, none⟩ 1 0).latency.count + 1 :=
  ⟨(chat_success_one_latency_sample
      (NewLangModel "model-a" ⟨3, 1000⟩ ⟨1/10, 3, none⟩ 1 0)
      ⟨"", "", ⟨⟨10, 100, 110⟩, "hi"⟩⟩ 200000000 0 (by norm_num)).1,
   (chat_success_one_latency_sample
      (NewLangModel "model-a" ⟨3, 1000⟩ ⟨1/10, 3, none⟩ 1 0)
      ⟨"", "", ⟨⟨10, 100, 110⟩, "hi"⟩⟩ 200000000 0 (by norm_num)).2⟩

/-- C10: on the success path, `Chat` rewrites only the `modelID` field of the
client's response — `routerID` and the whole provider payload are returned
verbatim — and neither the rate-limit tracker nor the error budget (nor any
other model field besides the latency average) is modified. -/
theorem chat_success_frame (m : LangModel) (resp : UnifiedChatResponse)
    (elapsedNs now : ℕ) :
    ((m.Chat (.success resp) elapsedNs now).2.1 =
        some { resp with modelID := m.modelID }) ∧
    (∀ out, (m.Chat (.success resp) elapsedNs now).2.1 = some out →
      out.routerID = resp.routerID ∧ out.modelResponse = resp.modelResponse) ∧
    ((m.Chat (.success resp) elapsedNs now).1.rateLimit = m.rateLimit) ∧
    ((m.Chat (.success resp) elapsedNs now).1.errorBudget = m.errorBudget) ∧
    ((m.Chat (.success resp) elapsedNs now).1.modelID = m.modelID) ∧
    ((m.Chat (.success resp) elapsedNs now).1.weight = m.weight) ∧
    ((m.Chat (.success resp) elapsedNs now).1.latencyUpdateInterval =
        m.latencyUpdateInterval) := by
  refine ⟨rfl, ?_, rfl, rfl, rfl, rfl, rfl⟩
  intro out hout
  have : out = { resp with modelID := m.modelID } := by
    injection hout with h2
    exact h2.symm
  subst this
  exact ⟨rfl, rfl⟩

/-- C7: starting from any bucket whose token count is within capacity, every
finite sequence of timed `take`/`hasTokens` operations keeps
`0 ≤ tokens ≤ capacity`; moreover a `take(n)` that returns false leaves the
bucket state unchanged. -/
theorem tokenBucket_invariant (b : TokenBucket) (ops : List (BucketOp × ℕ))
    (h : b.tokens ≤ b.capacity) :
    (0 ≤ (b.run ops).tokens ∧ (b.run ops).tokens ≤ (b.run ops).capacity) ∧
    (∀ n t, (b.take n t).1 = false → (b.take n t).2 = b) := by
  refine ⟨⟨Nat.zero_le _, TokenBucket.run_tokens_le ops b h⟩, ?_⟩
  intro n t hfail
  unfold TokenBucket.take at hfail ⊢
  dsimp only at hfail ⊢
  split at hfail
  · exact absurd hfail (by simp)
  · simp only [if_neg (by assumption)]

/-- C7 witness: a capacity-2 bucket, one token per 1000 ticks, driven through
a failed oversized take, a refill-observing `hasTokens` and a successful
take. -/
theorem tokenBucket_invariant_witness :
    (NewTokenBucket 1000 2 0).tokens ≤ (NewTokenBucket 1000 2 0).capacity ∧
    (0 ≤ ((NewTokenBucket 1000 2 0).run
        [(.take 5, 0), (.hasTokens, 2500), (.take 1, 3000)]).tokens ∧
      ((NewTokenBucket 1000 2 0).run
        [(.take 5, 0), (.hasTokens, 2500), (.take 1, 3000)]).tokens ≤
      ((NewTokenBucket 1000 2 0).run
        [(.take 5, 0), (.hasTokens, 2500), (.take 1, 3000)]).capacity) ∧
    (((NewTokenBucket 1000 2 0).take 5 0).1 = false →
      ((NewTokenBucket 1000 2 0).take 5 0).2 = NewTokenBucket 1000 2 0) :=
  ⟨by decide,
    (tokenBucket_invariant (NewTokenBucket 1000 2 0)
      [(.take 5, 0), (.hasTokens, 2500), (.take 1, 3000)] (by decide)).1,
    (tokenBucket_invariant (NewTokenBucket 1000 2 0)
      [(.take 5, 0), (.hasTokens, 2500), (.take 1, 3000)] (by decide)).2 5 0⟩

/-- C8: `MovingAverage.add` accumulates an arithmetic mean while
`count < warmupSamples` and an EWMA afterwards, always incrementing `count`;
with `decay = 1/10` and `warmupSamples = 3`, the samples 10, 20, 30, 40
produce value 20 after the third sample and value 22 after the fourth. -/
theorem movingAverage_add_spec :
    (∀ (ma : MovingAverage) (s : ℚ),
      (ma.add s).count = ma.count + 1 ∧
      (ma.add s).value =
        (if ma.count < ma.warmupSamples then
          ma.value + (s - ma.value) / (ma.count + 1)
        else
          ma.value * (1 - ma.decay) + s * ma.decay)) ∧
    ((((NewMovingAverage (1/10) 3).add 10).add 20).add 30).value = 20 ∧
    (((((NewMovingAverage (1/10) 3).add 10).add 20).add 30).add 40).value = 22 := by
  refine ⟨?_, by norm_num [NewMovingAverage, MovingAverage.add],
    by norm_num [NewMovingAverage, MovingAverage.add]⟩
  intro ma s
  constructor
  · exact ma.add_count s
  · unfold MovingAverage.add
    split <;> rfl

/-- C9: a model freshly built by `NewLangModel` with a positive error budget
is healthy: its rate-limit tracker starts unlimited and its token bucket
starts full. -/
theorem newLangModel_initially_healthy (modelID : String) (budget : ErrorBudget)
    (cfg : LatencyConfig) (w : ℤ) (now : ℕ) (h : 1 ≤ budget.budget) :
    (NewLangModel modelID budget cfg w now).Healthy now = true := by
  unfold LangModel.Healthy NewLangModel NewRateLimitTracker RateLimitTracker.limited
  unfold TokenBucket.hasTokens TokenBucket.refill NewTokenBucket
  simp only [Nat.sub_self, Nat.zero_div, lt_irrefl, if_neg (lt_irrefl 0)]
  simpa using h

/-- C9 witness: a concrete fresh model with a budget of 3 tokens is
healthy. -/
theorem newLangModel_initially_healthy_witness :
    (NewLangModel "model-a" ⟨3, 1000⟩ ⟨1/10, 3, none⟩ 1 5).Healthy 5 = true :=
  newLangModel_initially_healthy "model-a" ⟨3, 1000⟩ ⟨1/10, 3, none⟩ 1 5
    (by decide)

end Glide



